import Mathlib

/-!
Shallow embedding of the TaxiBot document tax processing pipeline
(src/express-api/index.js, src/express-api/integrations/govApis.js and the
NFe XML module) together with theorems checking the natural-language
specification against it.

Conventions of the embedding:
* JavaScript numbers are modelled as rationals (`ℚ`); the amounts involved
  are exact decimals.
* A possibly-absent JavaScript field is an `Option`; the JS `x || d` idiom
  (which also replaces `0` and `""` by the default) is `jsOrQ` / `jsOrS`.
* External services (Textract/OCR, the GPT structuring and judgment calls,
  BraveSearch, the OpenAI embedding similarity, SEFAZ) are passed in as
  explicit outcome arguments: an `Except`/`Option` value standing for what
  the awaited call returned, or a scoring function standing for the
  embedding similarity. Everything the repository itself computes is
  translated directly from the source.
-/

set_option autoImplicit false
set_option linter.unusedVariables false

namespace Taxibot

/-! ## JSON values

`JSON.parse` can return any JSON value; the GPT-output parsing code in
`extractDocumentData` and `validateCompliance` stores whatever it returns. -/

inductive Json where
  | null : Json
  | bool (b : Bool) : Json
  | num (q : ℚ) : Json
  | str (s : String) : Json
  | arr (elems : List Json) : Json
  | obj (fields : List (String × Json)) : Json

/-- Field access `j.k` on a parsed JSON value: defined on objects, `none`
(JS `undefined`) otherwise. -/
def Json.get : Json → String → Option Json
  | .obj fields, k => fields.lookup k
  | _, _ => none

/-! ## Document records

`documentData` as consumed by the calculators: the fields the code reads,
each possibly absent (the code guards every access with `||` defaults or
optional chaining). -/

structure TaxInfo where
  serviceCode : Option String
  ipiCategory : Option String
  regime : Option String
deriving DecidableEq

structure DocumentData where
  documentType : Option String
  totalValue : Option ℚ
  state : Option String
  municipality : Option String
  operationType : Option String
  taxInfo : Option TaxInfo
deriving DecidableEq

/-- JS `x || d` for string-valued fields: `undefined` and `""` are falsy. -/
def jsOrS (x : Option String) (d : String) : String :=
  match x with
  | none => d
  | some s => if s = "" then d else s

/-- JS `x || d` for number-valued fields: `undefined` and `0` are falsy. -/
def jsOrQ (x : Option ℚ) (d : ℚ) : ℚ :=
  match x with
  | none => d
  | some v => if v = 0 then d else v

/-! ## Tax calculations

The calculators return JS objects whose `taxes` key holds a different set
of components per document type; `Taxes` records each component as present
(`some`) or absent (`undefined`, `none`). -/

structure Taxes where
  ICMS : Option ℚ
  ISS : Option ℚ
  IPI : Option ℚ
  PIS : Option ℚ
  COFINS : Option ℚ
deriving DecidableEq

structure TaxCalculation where
  baseValue : ℚ
  taxes : Taxes
deriving DecidableEq

/-- A ranked excerpt returned by the in-memory vector store: a langchain
document with `pageContent` and the `source` metadata recorded by
`processTaxRuleSearch`. -/
structure TaxRuleExcerpt where
  pageContent : String
  source : String
deriving DecidableEq

structure ICMSRates where
  standard : ℚ
  reduced : ℚ
deriving DecidableEq

/-- `getICMSRates(state, operation)` from src/express-api/index.js. -/
def getICMSRates (state operation : String) : ICMSRates :=
  if state = "SP" ∧ operation = "VENDA" then { standard := 18, reduced := 12 }
  else if state = "RJ" then { standard := 20, reduced := 13 }
  else { standard := 18, reduced := 12 }

/-- `getISSRate(municipality, serviceCode)`: 5% for São Paulo
(case-insensitive), 3% fallback. Caveat: Lean's `String.toLower` lowers
only ASCII letters while JS `toLowerCase()` also lowers accented ones,
so an input like "SÃO PAULO" gets the fallback here but 5% in JS; the
theorems below use only the nonnegativity of the returned rate. -/
def getISSRate (municipality serviceCode : String) : ℚ :=
  if municipality.toLower = "são paulo" then 5 else 3

/-- `calculateIPI(documentData)`: 4% of totalValue when
`taxInfo?.ipiCategory === 'basic'`, else 0. -/
def calculateIPI (documentData : DocumentData) : ℚ :=
  if documentData.taxInfo.bind TaxInfo.ipiCategory = some "basic" then
    jsOrQ documentData.totalValue 0 * 0.04
  else 0

/-- `calculateNFETaxes(documentData, taxRules)`. -/
def calculateNFETaxes (documentData : DocumentData)
    (taxRules : List TaxRuleExcerpt) : TaxCalculation :=
  let baseValue := jsOrQ documentData.totalValue 0
  let state := jsOrS documentData.state "SP"
  let operation := jsOrS documentData.operationType "VENDA"
  let icmsRates := getICMSRates state operation
  { baseValue
    taxes :=
      { ICMS := some (baseValue * (icmsRates.standard / 100))
        ISS := none
        IPI := some (calculateIPI documentData)
        PIS := some (baseValue * 0.0165)
        COFINS := some (baseValue * 0.076) } }

/-- `calculateNFSETaxes(documentData, taxRules)`. -/
def calculateNFSETaxes (documentData : DocumentData)
    (taxRules : List TaxRuleExcerpt) : TaxCalculation :=
  let baseValue := jsOrQ documentData.totalValue 0
  let municipality := jsOrS documentData.municipality "São Paulo"
  let serviceCode := jsOrS (documentData.taxInfo.bind TaxInfo.serviceCode) "1001"
  let issRate := getISSRate municipality serviceCode
  { baseValue
    taxes :=
      { ICMS := none
        ISS := some (baseValue * (issRate / 100))
        IPI := none
        PIS := some (baseValue * 0.0165)
        COFINS := some (baseValue * 0.076) } }

/-- `calculateNFCETaxes(documentData, taxRules)`. -/
def calculateNFCETaxes (documentData : DocumentData)
    (taxRules : List TaxRuleExcerpt) : TaxCalculation :=
  let baseValue := jsOrQ documentData.totalValue 0
  let state := jsOrS documentData.state "SP"
  let operation := jsOrS documentData.operationType "VENDA"
  let icmsRates := getICMSRates state operation
  { baseValue
    taxes :=
      { ICMS := some (baseValue * (icmsRates.reduced / 100))
        ISS := none
        IPI := none
        PIS := some (baseValue * 0.0165)
        COFINS := some (baseValue * 0.076) } }

/-- `calculateCTETaxes(documentData, taxRules)`. -/
def calculateCTETaxes (documentData : DocumentData)
    (taxRules : List TaxRuleExcerpt) : TaxCalculation :=
  let baseValue := jsOrQ documentData.totalValue 0
  { baseValue
    taxes :=
      { ICMS := some (baseValue * 0.12)
        ISS := none
        IPI := none
        PIS := none
        COFINS := none } }

/-- `applySpecialRegimes(baseCalculation, documentData, taxRules)`:
if `taxInfo?.regime === 'Simples Nacional'`, halve the ICMS component if
it is present (`!== undefined`); otherwise return the base calculation
unchanged. -/
def applySpecialRegimes (baseCalculation : TaxCalculation)
    (documentData : DocumentData) (taxRules : List TaxRuleExcerpt) :
    TaxCalculation :=
  if documentData.taxInfo.bind TaxInfo.regime = some "Simples Nacional" then
    { baseCalculation with
      taxes := { baseCalculation.taxes with
                 ICMS := baseCalculation.taxes.ICMS.map (· * 0.5) } }
  else baseCalculation

/-- The `taxCalculations` object literal of `calculateTaxesWithRules` as
an own-property lookup: `taxCalculations[documentType]`, `none` for a key
that is not an own property (including an absent `documentType`). This is
faithful to the JS lookup only for keys that are not properties of
`Object.prototype`: for a key such as `"constructor"` or `"toString"` the
JS lookup walks the prototype chain and finds a truthy inherited member,
so the `|| calculateNFETaxes` default does not fire there.
`dispatchedCalculator` below models the full lookup. -/
def taxCalculations (documentType : Option String) :
    Option (DocumentData → List TaxRuleExcerpt → TaxCalculation) :=
  match documentType with
  | some "NFE" => some calculateNFETaxes
  | some "NFSE" => some calculateNFSETaxes
  | some "NFCE" => some calculateNFCETaxes
  | some "CTE" => some calculateCTETaxes
  | _ => none

/-- `calculateTaxesWithRules(documentData, taxRules)`: string-keyed
dispatch `taxCalculations[documentData.documentType] || calculateNFETaxes`,
followed by `applySpecialRegimes`. -/
def calculateTaxesWithRules (documentData : DocumentData)
    (taxRules : List TaxRuleExcerpt) : TaxCalculation :=
  let calculator :=
    (taxCalculations documentData.documentType).getD calculateNFETaxes
  let baseCalculation := calculator documentData taxRules
  applySpecialRegimes baseCalculation documentData taxRules

/-! ## DataExtractor and ComplianceValidator

`extractDocumentData` and `validateCompliance` each call GPT and run
`JSON.parse` on the reply inside a try/catch. The embedding takes the
parse outcome of the service's reply directly: `none` stands for a reply
on which `JSON.parse` threw (non-JSON text), `some v` for a reply that
parsed to the JSON value `v`. The catch branch builds the hard-coded
fallback object; the success branch returns the parsed value as is. -/

/-- The canonical default record built in `extractDocumentData`'s catch
branch. -/
def defaultDocumentJson : Json :=
  .obj [("documentType", .str "NFE"),
        ("totalValue", .num 0),
        ("state", .str "SP"),
        ("municipality", .str "São Paulo"),
        ("operationType", .str "VENDA"),
        ("taxInfo", .obj [])]

/-- `extractDocumentData`: `parsedData = JSON.parse(content)` guarded by a
try/catch that substitutes the canonical default record. -/
def extractDocumentData (parseOutcome : Option Json) : Json :=
  match parseOutcome with
  | none => defaultDocumentJson
  | some parsedData => parsedData

/-- The fallback built in `validateCompliance`'s catch branch. -/
def complianceFallbackJson : Json :=
  .obj [("status", .str "warning"),
        ("issues", .arr [.str "Could not parse GPT response"]),
        ("suggestions", .arr [])]

/-- `validateCompliance`: `validationResult = JSON.parse(content)` guarded
by a try/catch that substitutes the warning fallback. -/
def validateCompliance (parseOutcome : Option Json) : Json :=
  match parseOutcome with
  | none => complianceFallbackJson
  | some validationResult => validationResult

/-! ## Bridging a parsed JSON record to the calculators

Downstream of `extractDocumentData`, the code reads
`documentData.documentType`, `documentData.totalValue`, … directly off the
parsed value; on a JSON object these are key lookups, on any other value
they yield `undefined`. -/

def Json.asStr : Option Json → Option String
  | some (.str s) => some s
  | _ => none

def Json.asNum : Option Json → Option ℚ
  | some (.num q) => some q
  | _ => none

/-- Read the fields the calculators access off a parsed `documentData`
value, with absent/mistyped fields as `none`. Caveat: a mistyped field
is treated as absent, whereas JS would coerce a truthy non-number (e.g.
a string totalValue) through the arithmetic; no theorem below examines
the pipeline's success-branch values through this bridge. -/
def docDataOfJson (j : Json) : DocumentData :=
  { documentType := Json.asStr (j.get "documentType")
    totalValue := Json.asNum (j.get "totalValue")
    state := Json.asStr (j.get "state")
    municipality := Json.asStr (j.get "municipality")
    operationType := Json.asStr (j.get "operationType")
    taxInfo :=
      match j.get "taxInfo" with
      | some ti =>
          some { serviceCode := Json.asStr (ti.get "serviceCode")
                 ipiCategory := Json.asStr (ti.get "ipiCategory")
                 regime := Json.asStr (ti.get "regime") }
      | none => none }

/-! ## RuleRetriever

`searchTaxRules` awaits a BraveSearch call and hands the returned documents
to `processTaxRuleSearch`; an error from the search (or the downstream
embedding/store calls) is logged and rethrown. The embedding similarity of
`MemoryVectorStore.similaritySearch` is external (OpenAI embeddings), so it
is passed in as a relevance score on the stored entries; the store returns
the `k` highest-scoring entries, ties kept in insertion order. -/

/-- A raw document returned by BraveSearch: `pageContent` plus the
`metadata.source` field read by `processTaxRuleSearch`. -/
structure SearchDoc where
  pageContent : String
  source : String
deriving DecidableEq

/-- Stable insertion of an entry into a list sorted by descending score. -/
def insertDesc (score : TaxRuleExcerpt → ℚ) (x : TaxRuleExcerpt) :
    List TaxRuleExcerpt → List TaxRuleExcerpt
  | [] => [x]
  | y :: ys =>
      if score y ≤ score x then x :: y :: ys else y :: insertDesc score x ys

/-- Stable sort by descending score. -/
def sortByScoreDesc (score : TaxRuleExcerpt → ℚ) :
    List TaxRuleExcerpt → List TaxRuleExcerpt
  | [] => []
  | x :: xs => insertDesc score x (sortByScoreDesc score xs)

/-- `MemoryVectorStore.similaritySearch(query, k)` over the stored entries:
the `k` entries most similar to the query under the embedding score. -/
def similaritySearch (entries : List TaxRuleExcerpt)
    (score : TaxRuleExcerpt → ℚ) (k : Nat) : List TaxRuleExcerpt :=
  (sortByScoreDesc score entries).take k

/-- `processTaxRuleSearch(docs, query)`: a `RecursiveCharacterTextSplitter`
with `chunkSize: 1000, chunkOverlap: 200` is constructed but never invoked;
the whole `pageContent` of each document (paired with its
`metadata.source`) is stored in the vector store, and the top 5 entries by
similarity to the query are returned. -/
def processTaxRuleSearch (docs : List SearchDoc)
    (score : TaxRuleExcerpt → ℚ) : List TaxRuleExcerpt :=
  let docTexts := docs.map SearchDoc.pageContent
  let entries :=
    (docTexts.zip (docs.map SearchDoc.source)).map
      (fun p => { pageContent := p.1, source := p.2 : TaxRuleExcerpt })
  similaritySearch entries score 5

/-- Pipeline-level errors: what a rethrown rejection of an awaited external
call carries. -/
inductive PErr where
  | textract : PErr
  | retrieval : PErr
  | other (msg : String) : PErr
deriving DecidableEq

/-- `searchTaxRules(query, …)`: on a search failure the catch branch logs
and rethrows the same error; on success it returns
`processTaxRuleSearch(docs, query)`. -/
def searchTaxRules (braveOutcome : Except PErr (List SearchDoc))
    (score : TaxRuleExcerpt → ℚ) : Except PErr (List TaxRuleExcerpt) :=
  match braveOutcome with
  | .error e => .error e
  | .ok docs => .ok (processTaxRuleSearch docs score)

/-! ## PipelineOrchestrator -/

structure PipelineResult where
  documentData : Json
  taxCalculation : TaxCalculation
  complianceCheck : Json
  applicableRules : List TaxRuleExcerpt

/-- `processDocument(buffer, mimeType, messageContext)`: the whole body is
one try/catch whose catch branch logs and rethrows, so any stage failure
aborts the run. External outcomes are passed in: the Textract response,
the parse outcome of the structuring reply, the BraveSearch outcome with
the embedding score, and the parse outcome of the judgment reply.
(`storeDocumentInDb` swallows its own errors and writes no pipeline state,
so it does not appear.) -/
def processDocument (textractOutcome : Except PErr Json)
    (structuringParse : Option Json)
    (braveOutcome : Except PErr (List SearchDoc))
    (score : TaxRuleExcerpt → ℚ)
    (complianceParse : Option Json) : Except PErr PipelineResult :=
  match textractOutcome with
  | .error e => .error e
  | .ok _ =>
    let documentData := extractDocumentData structuringParse
    match searchTaxRules braveOutcome score with
    | .error e => .error e
    | .ok taxRules =>
      let taxCalculation :=
        calculateTaxesWithRules (docDataOfJson documentData) taxRules
      let complianceCheck := validateCompliance complianceParse
      .ok { documentData, taxCalculation, complianceCheck,
            applicableRules := taxRules }

/-! ## NFe structural validation (NFe XML module) -/

structure Emitente where
  cnpj : Option String
  nome : Option String
  ie : Option String
deriving DecidableEq

/-- The fields of a parsed NFe record that `validateNFeStructure` reads. -/
structure NFeData where
  chaveAcesso : Option String
  totalValue : Option ℚ
  emitente : Option Emitente
deriving DecidableEq

/-- JS falsiness of a possibly-absent string: `undefined` and `""`. -/
def jsFalsyStr : Option String → Bool
  | none => true
  | some s => s = ""

/-- JS falsiness of a possibly-absent number: `undefined` and `0`. -/
def jsFalsyNum : Option ℚ → Bool
  | none => true
  | some v => v = 0

/-- JS `x <= 0` on a possibly-absent number: comparison with `undefined`
is false. -/
def jsLeZero : Option ℚ → Bool
  | none => false
  | some v => v ≤ 0

/-- `validateNFeStructure(nfeData)`: three structural guards that throw,
then `await validateNFeWithSEFAZ(chaveAcesso)` whose result is returned.
The SEFAZ call is external; its outcome is an argument, consulted only
after all three guards pass. -/
def validateNFeStructure {α : Type} (nfeData : NFeData)
    (sefazOutcome : Except String α) : Except String α :=
  if jsFalsyStr nfeData.chaveAcesso then
    .error "NFe sem chave de acesso válida"
  else if jsFalsyStr (nfeData.emitente.bind Emitente.cnpj) then
    .error "NFe sem CNPJ do emitente"
  else if jsFalsyNum nfeData.totalValue || jsLeZero nfeData.totalValue then
    .error "NFe com valor total inválido"
  else sefazOutcome

/-! ## Derived definitions used by the specification statements -/

/-- A `DocumentData` with empty `taxInfo` object (`taxInfo: {}`). -/
def emptyTaxInfo : TaxInfo :=
  { serviceCode := none, ipiCategory := none, regime := none }

/-- The concrete record of §8 of the spec:
`{totalValue:1000, state:"SP", operationType:"VENDA"}` with empty
taxInfo. -/
def sampleNFEDoc : DocumentData :=
  { documentType := some "NFE"
    totalValue := some 1000
    state := some "SP"
    municipality := none
    operationType := some "VENDA"
    taxInfo := some emptyTaxInfo }

/-- A base calculation with an ICMS component of 180, as in §8 of the
spec. -/
def sampleCalc180 : TaxCalculation :=
  { baseValue := 1000
    taxes := { ICMS := some 180, ISS := none, IPI := some 0,
               PIS := some 16.5, COFINS := some 76 } }

/-- `sampleNFEDoc` under the Simples Nacional regime. -/
def sampleSimplesDoc : DocumentData :=
  { sampleNFEDoc with
    taxInfo := some { emptyTaxInfo with regime := some "Simples Nacional" } }

/-- A retrieved legal document longer than one chunk window. -/
def longRuleText : String := String.mk (List.replicate 1001 'a')

/-- Whether a JSON value is an object: a necessary condition for
conforming to the DocumentRecord / ComplianceResult schemas of the spec. -/
def Json.isObj : Json → Bool
  | .obj _ => true
  | _ => false

/-- Every tax component present in `t` is nonnegative. -/
def TaxesNonneg (t : Taxes) : Prop :=
  (∀ v ∈ t.ICMS, 0 ≤ v) ∧ (∀ v ∈ t.ISS, 0 ≤ v) ∧ (∀ v ∈ t.IPI, 0 ≤ v) ∧
  (∀ v ∈ t.PIS, 0 ≤ v) ∧ (∀ v ∈ t.COFINS, 0 ≤ v)

/-- Pointwise order on possibly-absent amounts of equal shape. -/
def optLe : Option ℚ → Option ℚ → Prop
  | none, none => True
  | some a, some b => a ≤ b
  | _, _ => False

/-- `s` is componentwise at most `t`, same components present. -/
def TaxesLe (s t : Taxes) : Prop :=
  optLe s.ICMS t.ICMS ∧ optLe s.ISS t.ISS ∧ optLe s.IPI t.IPI ∧
  optLe s.PIS t.PIS ∧ optLe s.COFINS t.COFINS

/-- The structural-failure condition of `validateNFeStructure` as the
claim phrases it: the record lacks a chaveAcesso, lacks an emitente CNPJ,
or has totalValue missing, zero, or ≤ 0 (JS truthiness of the three
guards). -/
def nfeStructureInvalid (nfeData : NFeData) : Prop :=
  jsFalsyStr nfeData.chaveAcesso = true ∨
  jsFalsyStr (nfeData.emitente.bind Emitente.cnpj) = true ∨
  (jsFalsyNum nfeData.totalValue || jsLeZero nfeData.totalValue) = true

/-- A structurally valid parsed NFe record. -/
def nfeSampleValid : NFeData :=
  { chaveAcesso := some "35190812345678000199550010000000011000000017"
    totalValue := some 100
    emitente := some { cnpj := some "12345678000199", nome := none,
                       ie := none } }

/-- `nfeSampleValid` with the access key removed. -/
def nfeSampleNoKey : NFeData := { nfeSampleValid with chaveAcesso := none }

/-- What the local `calculator` of `calculateTaxesWithRules` ends up
being under full JavaScript property-lookup semantics: one of the four
registered tax calculators, or a truthy member inherited from
`Object.prototype` — a function or object that is not a tax calculator
(calling it does not produce a `TaxCalculation`: e.g. the inherited
`constructor` is `Object`, and `Object(documentData, taxRules)` returns
`documentData` itself). -/
inductive Dispatched where
  | nfe : Dispatched
  | nfse : Dispatched
  | nfce : Dispatched
  | cte : Dispatched
  | inheritedMember (key : String) : Dispatched
deriving DecidableEq

/-- The property names of `Object.prototype`, all reachable by a `[]`
lookup on an object literal through the prototype chain, and all holding
truthy values (functions, or `Object.prototype` itself for
`__proto__`). -/
def objectPrototypeKeys : List String :=
  ["constructor", "hasOwnProperty", "isPrototypeOf", "propertyIsEnumerable",
   "toLocaleString", "toString", "valueOf", "__proto__",
   "__defineGetter__", "__defineSetter__", "__lookupGetter__",
   "__lookupSetter__"]

/-- `taxCalculations[documentData.documentType] || calculateNFETaxes`
under full JavaScript lookup semantics: own properties first, then the
prototype chain (whose members are truthy, so the `||` default does not
fire on them), and the NFE default only when the lookup yields
`undefined`. -/
def dispatchedCalculator (documentType : Option String) : Dispatched :=
  match documentType with
  | none => .nfe
  | some k =>
      if k = "NFE" then .nfe
      else if k = "NFSE" then .nfse
      else if k = "NFCE" then .nfce
      else if k = "CTE" then .cte
      else if k ∈ objectPrototypeKeys then .inheritedMember k
      else .nfe

/-! ## Theorems -/

/-- C2: on `{totalValue:1000, state:"SP", operationType:"VENDA"}` with
empty taxInfo the NFE calculator returns baseValue 1000 with ICMS=180,
PIS=16.50, COFINS=76, IPI=0; and in general ICMS = base × standard ICMS
rate, IPI = base × 4% exactly when `taxInfo.ipiCategory == "basic"` (else
0), PIS = base × 1.65%, COFINS = base × 7.6%. -/
theorem calculateNFETaxes_formulas :
    (calculateNFETaxes sampleNFEDoc [] =
      { baseValue := 1000
        taxes := { ICMS := some 180, ISS := none, IPI := some 0,
                   PIS := some 16.5, COFINS := some 76 } }) ∧
    ∀ (d : DocumentData) (rules : List TaxRuleExcerpt),
      (calculateNFETaxes d rules).baseValue = jsOrQ d.totalValue 0 ∧
      (calculateNFETaxes d rules).taxes.ICMS =
        some (jsOrQ d.totalValue 0 *
          ((getICMSRates (jsOrS d.state "SP")
              (jsOrS d.operationType "VENDA")).standard / 100)) ∧
      (calculateNFETaxes d rules).taxes.IPI =
        some (if d.taxInfo.bind TaxInfo.ipiCategory = some "basic" then
                jsOrQ d.totalValue 0 * (4 / 100)
              else 0) ∧
      (calculateNFETaxes d rules).taxes.PIS =
        some (jsOrQ d.totalValue 0 * (165 / 10000)) ∧
      (calculateNFETaxes d rules).taxes.COFINS =
        some (jsOrQ d.totalValue 0 * (76 / 1000)) := by
  constructor
  · simp only [calculateNFETaxes, sampleNFEDoc, emptyTaxInfo, jsOrQ, jsOrS,
      getICMSRates, calculateIPI, Option.bind]
    norm_num
    decide
  · intro d rules
    refine ⟨rfl, rfl, ?_, ?_, ?_⟩
    · simp only [calculateNFETaxes, calculateIPI]
      split <;> norm_num
    · norm_num [calculateNFETaxes]
    · norm_num [calculateNFETaxes]

/-- C4: under `taxInfo.regime == "Simples Nacional"` the RegimeAdjuster
halves a present ICMS component and leaves baseValue and every other tax
component unchanged; under any other regime the calculation is returned
unchanged. -/
theorem applySpecialRegimes_regime_rules (baseCalculation : TaxCalculation)
    (documentData : DocumentData) (taxRules : List TaxRuleExcerpt) :
    (∀ v : ℚ,
      documentData.taxInfo.bind TaxInfo.regime = some "Simples Nacional" →
      baseCalculation.taxes.ICMS = some v →
      (applySpecialRegimes baseCalculation documentData taxRules).taxes.ICMS
          = some (v * (1 / 2)) ∧
      (applySpecialRegimes baseCalculation documentData taxRules).baseValue
          = baseCalculation.baseValue ∧
      (applySpecialRegimes baseCalculation documentData taxRules).taxes.ISS
          = baseCalculation.taxes.ISS ∧
      (applySpecialRegimes baseCalculation documentData taxRules).taxes.IPI
          = baseCalculation.taxes.IPI ∧
      (applySpecialRegimes baseCalculation documentData taxRules).taxes.PIS
          = baseCalculation.taxes.PIS ∧
      (applySpecialRegimes baseCalculation documentData taxRules).taxes.COFINS
          = baseCalculation.taxes.COFINS) ∧
    (documentData.taxInfo.bind TaxInfo.regime ≠ some "Simples Nacional" →
      applySpecialRegimes baseCalculation documentData taxRules
        = baseCalculation) := by
  constructor
  · intro v hreg hicms
    unfold applySpecialRegimes
    rw [if_pos hreg, hicms]
    refine ⟨?_, rfl, rfl, rfl, rfl, rfl⟩
    show Option.map (· * 0.5) (some v) = some (v * (1 / 2))
    rw [Option.map_some']
    norm_num
  · intro hreg
    unfold applySpecialRegimes
    rw [if_neg hreg]

/-- Witness for C4: ICMS 180 becomes 90 under Simples Nacional, and the
sample document without a regime is left unchanged. -/
theorem applySpecialRegimes_regime_rules_witness :
    (applySpecialRegimes sampleCalc180 sampleSimplesDoc []).taxes.ICMS
        = some 90 ∧
    applySpecialRegimes sampleCalc180 sampleNFEDoc [] = sampleCalc180 := by
  constructor
  · have h :=
      ((applySpecialRegimes_regime_rules sampleCalc180 sampleSimplesDoc []).1
        180 rfl rfl).1
    rw [h]; norm_num
  · exact (applySpecialRegimes_regime_rules sampleCalc180 sampleNFEDoc []).2
      (by simp [sampleNFEDoc, emptyTaxInfo])

/-- C5 is refuted: `"constructor"` is outside {NFE, NFSE, NFCE, CTE},
yet under JavaScript lookup semantics
`taxCalculations['constructor']` finds the truthy `Object` constructor
inherited from `Object.prototype`, so `|| calculateNFETaxes` does not
fire and the registry does not dispatch to the NFE calculator (calling
the inherited member yields `documentData` itself, not the NFE
calculation). -/
theorem calculateTaxesWithRules_default_dispatch_cx :
    ((some "constructor" : Option String) ∉
      ([some "NFE", some "NFSE", some "NFCE", some "CTE"] :
        List (Option String))) ∧
    dispatchedCalculator (some "constructor")
      = Dispatched.inheritedMember "constructor" ∧
    Dispatched.inheritedMember "constructor" ≠ Dispatched.nfe := by
  refine ⟨by decide, by decide, by decide⟩

/-- C5 (amended): a documentType outside {NFE, NFSE, NFCE, CTE}
(including a missing one) that is not a property name of
`Object.prototype` dispatches to the NFE calculator, and on that domain
the registry's result is the NFE calculation followed by the regime
adjustment on the same inputs. -/
theorem calculateTaxesWithRules_default_dispatch (documentData : DocumentData)
    (taxRules : List TaxRuleExcerpt)
    (h : documentData.documentType ∉
      ([some "NFE", some "NFSE", some "NFCE", some "CTE"] :
        List (Option String)))
    (hp : ∀ s : String, documentData.documentType = some s →
      s ∉ objectPrototypeKeys) :
    dispatchedCalculator documentData.documentType = Dispatched.nfe ∧
    calculateTaxesWithRules documentData taxRules =
      applySpecialRegimes (calculateNFETaxes documentData taxRules)
        documentData taxRules := by
  simp only [List.mem_cons, List.not_mem_nil, or_false] at h
  push_neg at h
  obtain ⟨h1, h2, h3, h4⟩ := h
  constructor
  · rcases hdt : documentData.documentType with _ | s
    · rfl
    · have hs1 : ¬ s = "NFE" := fun hs => h1 (by rw [hdt, hs])
      have hs2 : ¬ s = "NFSE" := fun hs => h2 (by rw [hdt, hs])
      have hs3 : ¬ s = "NFCE" := fun hs => h3 (by rw [hdt, hs])
      have hs4 : ¬ s = "CTE" := fun hs => h4 (by rw [hdt, hs])
      have hsp : s ∉ objectPrototypeKeys := hp s hdt
      simp only [dispatchedCalculator]
      rw [if_neg hs1, if_neg hs2, if_neg hs3, if_neg hs4, if_neg hsp]
  · have hlook : taxCalculations documentData.documentType = none := by
      unfold taxCalculations
      split
      · exact absurd (by assumption) h1
      · exact absurd (by assumption) h2
      · exact absurd (by assumption) h3
      · exact absurd (by assumption) h4
      · rfl
    simp only [calculateTaxesWithRules, hlook, Option.getD_none]

/-- Witness for C5 at the unknown documentType "XYZ", outside the enum
and outside `Object.prototype`. -/
theorem calculateTaxesWithRules_default_dispatch_witness :
    dispatchedCalculator (some "XYZ") = Dispatched.nfe ∧
    calculateTaxesWithRules { sampleNFEDoc with documentType := some "XYZ" } []
      = applySpecialRegimes
          (calculateNFETaxes
            { sampleNFEDoc with documentType := some "XYZ" } [])
          { sampleNFEDoc with documentType := some "XYZ" } [] :=
  calculateTaxesWithRules_default_dispatch
    { sampleNFEDoc with documentType := some "XYZ" } [] (by simp)
    (by intro s hs; simp at hs; subst hs; decide)

/-- C9: the registry is deterministic — identical `(DocumentRecord,
TaxRuleExcerpt[])` inputs give identical `TaxCalculation` results (the
embedding is a pure function: the source mutates only the locally built
`baseCalculation`, never `documentData` or `taxRules`). -/
theorem calculateTaxesWithRules_deterministic (d₁ d₂ : DocumentData)
    (rules₁ rules₂ : List TaxRuleExcerpt) (hd : d₁ = d₂)
    (hr : rules₁ = rules₂) :
    calculateTaxesWithRules d₁ rules₁ = calculateTaxesWithRules d₂ rules₂ := by
  rw [hd, hr]

/-- Witness for C9 at the sample document. -/
theorem calculateTaxesWithRules_deterministic_witness :
    calculateTaxesWithRules sampleNFEDoc [] =
      calculateTaxesWithRules sampleNFEDoc [] :=
  calculateTaxesWithRules_deterministic sampleNFEDoc sampleNFEDoc [] []
    rfl rfl

/-- C1 is refuted: even after the extraction stage has produced a
DocumentRecord (here the canonical default), a RetrievalError from the
rule search makes `processDocument` rethrow — the run ends in an error,
not in a PipelineResult with an empty rule list. -/
theorem processDocument_retrieval_abort_cx :
    extractDocumentData none = defaultDocumentJson ∧
    processDocument (.ok (Json.obj [])) none (.error PErr.retrieval)
      (fun _ => 0) none = .error PErr.retrieval :=
  ⟨rfl, rfl⟩

/-- C1 (amended): a RetrievalError from RuleRetriever aborts the run —
`processDocument` propagates the error unchanged and returns no
PipelineResult; the empty-rule-set degradation does not happen. -/
theorem processDocument_retrieval_error_propagates
    (textractResponse : Json) (structuringParse : Option Json) (e : PErr)
    (score : TaxRuleExcerpt → ℚ) (complianceParse : Option Json) :
    processDocument (.ok textractResponse) structuringParse (.error e) score
      complianceParse = .error e := rfl

/-- C3, at the failing input: `processTaxRuleSearch` constructs the
1000/200 splitter but never invokes it, so a single 1001-character source
document is indexed and returned whole — no 1000-character window with
200-character overlap is ever produced, contradicting the function's own
doc comment ("Splits them into chunks"). -/
theorem processTaxRuleSearch_whole_doc_indexed :
    1000 < longRuleText.length ∧
    processTaxRuleSearch [{ pageContent := longRuleText, source := "gov" }]
        (fun _ => 1)
      = [{ pageContent := longRuleText, source := "gov" }] := by
  constructor
  · show 1000 < (List.replicate 1001 'a').length
    rw [List.length_replicate]
    norm_num
  · rfl

/-- C6 is refuted: the structuring reply `5` parses as JSON but is not a
DocumentRecord (not even a JSON object), yet `extractDocumentData` returns
it unchanged instead of the canonical default record (the catch guards
only `JSON.parse` failures, not schema conformance). -/
theorem extractDocumentData_nonconforming_cx :
    (Json.num 5).isObj = false ∧
    extractDocumentData (some (Json.num 5)) = Json.num 5 ∧
    extractDocumentData (some (Json.num 5)) ≠ defaultDocumentJson :=
  ⟨rfl, rfl, fun h => Json.noConfusion h⟩

/-- C6 (amended): the canonical default record is returned exactly when
the structuring reply is not syntactically valid JSON; a reply that parses
as JSON is returned as parsed, whether or not it conforms to the
DocumentRecord schema. Neither branch raises. -/
theorem extractDocumentData_fallback :
    extractDocumentData none = defaultDocumentJson ∧
    ∀ v : Json, extractDocumentData (some v) = v :=
  ⟨rfl, fun _ => rfl⟩

/-- C7 is refuted: the judgment reply `5` parses as JSON but is not a
ComplianceResult, yet `validateCompliance` returns it unchanged instead of
the warning fallback. -/
theorem validateCompliance_nonconforming_cx :
    (Json.num 5).isObj = false ∧
    validateCompliance (some (Json.num 5)) = Json.num 5 ∧
    validateCompliance (some (Json.num 5)) ≠ complianceFallbackJson :=
  ⟨rfl, rfl, fun h => Json.noConfusion h⟩

/-- C7 (amended): the warning fallback
`{status:"warning", issues:["Could not parse GPT response"],
suggestions:[]}` is returned exactly when the judgment reply is not
syntactically valid JSON; a reply that parses as JSON is returned as
parsed, conforming or not. Neither branch raises. -/
theorem validateCompliance_fallback :
    validateCompliance none = complianceFallbackJson ∧
    ∀ v : Json, validateCompliance (some v) = v :=
  ⟨rfl, fun _ => rfl⟩

/-! ### Nonnegativity and monotonicity of the computed amounts (C8) -/

lemma jsOrQ_some_zero (v : ℚ) : jsOrQ (some v) 0 = v := by
  show (if v = 0 then (0 : ℚ) else v) = v
  split_ifs with h
  · exact h.symm
  · rfl

lemma jsOrQ_nonneg (x : Option ℚ) (h : ∀ v ∈ x, 0 ≤ v) :
    0 ≤ jsOrQ x 0 := by
  rcases x with _ | v
  · exact le_refl 0
  · rw [jsOrQ_some_zero]
    exact h v rfl

lemma getICMSRates_nonneg (state operation : String) :
    0 ≤ (getICMSRates state operation).standard ∧
    0 ≤ (getICMSRates state operation).reduced := by
  unfold getICMSRates
  split_ifs <;> exact ⟨by norm_num, by norm_num⟩

lemma getISSRate_nonneg (municipality serviceCode : String) :
    0 ≤ getISSRate municipality serviceCode := by
  unfold getISSRate
  split_ifs <;> norm_num

lemma calculateIPI_nonneg (d : DocumentData)
    (h : 0 ≤ jsOrQ d.totalValue 0) : 0 ≤ calculateIPI d := by
  unfold calculateIPI
  split_ifs
  · exact mul_nonneg h (by norm_num)
  · exact le_refl 0

lemma optNonneg_some {x : ℚ} (h : 0 ≤ x) :
    ∀ v ∈ (some x : Option ℚ), 0 ≤ v := by
  intro v hv
  rw [Option.mem_def, Option.some_inj] at hv
  rw [← hv]
  exact h

lemma optNonneg_none : ∀ v ∈ (none : Option ℚ), 0 ≤ v := by
  intro v hv
  exact absurd hv (by simp)

lemma calculateNFETaxes_nonneg (d : DocumentData)
    (rules : List TaxRuleExcerpt) (h : 0 ≤ jsOrQ d.totalValue 0) :
    TaxesNonneg (calculateNFETaxes d rules).taxes := by
  refine ⟨?_, ?_, ?_, ?_, ?_⟩
  · exact optNonneg_some (mul_nonneg h
      (div_nonneg (getICMSRates_nonneg _ _).1 (by norm_num)))
  · exact optNonneg_none
  · exact optNonneg_some (calculateIPI_nonneg d h)
  · exact optNonneg_some (mul_nonneg h (by norm_num))
  · exact optNonneg_some (mul_nonneg h (by norm_num))

lemma calculateNFSETaxes_nonneg (d : DocumentData)
    (rules : List TaxRuleExcerpt) (h : 0 ≤ jsOrQ d.totalValue 0) :
    TaxesNonneg (calculateNFSETaxes d rules).taxes := by
  refine ⟨?_, ?_, ?_, ?_, ?_⟩
  · exact optNonneg_none
  · exact optNonneg_some (mul_nonneg h
      (div_nonneg (getISSRate_nonneg _ _) (by norm_num)))
  · exact optNonneg_none
  · exact optNonneg_some (mul_nonneg h (by norm_num))
  · exact optNonneg_some (mul_nonneg h (by norm_num))

lemma calculateNFCETaxes_nonneg (d : DocumentData)
    (rules : List TaxRuleExcerpt) (h : 0 ≤ jsOrQ d.totalValue 0) :
    TaxesNonneg (calculateNFCETaxes d rules).taxes := by
  refine ⟨?_, ?_, ?_, ?_, ?_⟩
  · exact optNonneg_some (mul_nonneg h
      (div_nonneg (getICMSRates_nonneg _ _).2 (by norm_num)))
  · exact optNonneg_none
  · exact optNonneg_none
  · exact optNonneg_some (mul_nonneg h (by norm_num))
  · exact optNonneg_some (mul_nonneg h (by norm_num))

lemma calculateCTETaxes_nonneg (d : DocumentData)
    (rules : List TaxRuleExcerpt) (h : 0 ≤ jsOrQ d.totalValue 0) :
    TaxesNonneg (calculateCTETaxes d rules).taxes := by
  refine ⟨?_, ?_, ?_, ?_, ?_⟩
  · exact optNonneg_some (mul_nonneg h (by norm_num))
  · exact optNonneg_none
  · exact optNonneg_none
  · exact optNonneg_none
  · exact optNonneg_none

lemma applySpecialRegimes_nonneg (c : TaxCalculation) (d : DocumentData)
    (rules : List TaxRuleExcerpt) (h : TaxesNonneg c.taxes) :
    TaxesNonneg (applySpecialRegimes c d rules).taxes := by
  unfold applySpecialRegimes
  split_ifs with hreg
  · obtain ⟨h1, h2, h3, h4, h5⟩ := h
    refine ⟨?_, h2, h3, h4, h5⟩
    intro v hv
    rcases hI : c.taxes.ICMS with _ | w
    · rw [hI] at hv
      exact absurd hv (by simp)
    · rw [hI, Option.map_some', Option.mem_def, Option.some_inj] at hv
      rw [← hv]
      exact mul_nonneg (h1 w (by simp [hI])) (by norm_num)
  · exact h

/-- Monotone step: `v₁ * c ≤ v₂ * c` for a nonnegative coefficient. -/
lemma mul_coeff_mono {v₁ v₂ c : ℚ} (h12 : v₁ ≤ v₂) (hc : 0 ≤ c) :
    optLe (some (v₁ * c)) (some (v₂ * c)) :=
  mul_le_mul_of_nonneg_right h12 hc

lemma calculateNFETaxes_mono (d : DocumentData)
    (rules : List TaxRuleExcerpt) (v₁ v₂ : ℚ) (h12 : v₁ ≤ v₂) :
    TaxesLe (calculateNFETaxes { d with totalValue := some v₁ } rules).taxes
      (calculateNFETaxes { d with totalValue := some v₂ } rules).taxes := by
  simp only [calculateNFETaxes, calculateIPI, jsOrQ_some_zero]
  refine ⟨?_, trivial, ?_, ?_, ?_⟩
  · exact mul_coeff_mono h12
      (div_nonneg (getICMSRates_nonneg _ _).1 (by norm_num))
  · split_ifs
    · exact mul_coeff_mono h12 (by norm_num)
    · exact le_refl 0
  · exact mul_coeff_mono h12 (by norm_num)
  · exact mul_coeff_mono h12 (by norm_num)

lemma calculateNFSETaxes_mono (d : DocumentData)
    (rules : List TaxRuleExcerpt) (v₁ v₂ : ℚ) (h12 : v₁ ≤ v₂) :
    TaxesLe (calculateNFSETaxes { d with totalValue := some v₁ } rules).taxes
      (calculateNFSETaxes { d with totalValue := some v₂ } rules).taxes := by
  simp only [calculateNFSETaxes, jsOrQ_some_zero]
  refine ⟨trivial, ?_, trivial, ?_, ?_⟩
  · exact mul_coeff_mono h12
      (div_nonneg (getISSRate_nonneg _ _) (by norm_num))
  · exact mul_coeff_mono h12 (by norm_num)
  · exact mul_coeff_mono h12 (by norm_num)

lemma calculateNFCETaxes_mono (d : DocumentData)
    (rules : List TaxRuleExcerpt) (v₁ v₂ : ℚ) (h12 : v₁ ≤ v₂) :
    TaxesLe (calculateNFCETaxes { d with totalValue := some v₁ } rules).taxes
      (calculateNFCETaxes { d with totalValue := some v₂ } rules).taxes := by
  simp only [calculateNFCETaxes, jsOrQ_some_zero]
  refine ⟨?_, trivial, trivial, ?_, ?_⟩
  · exact mul_coeff_mono h12
      (div_nonneg (getICMSRates_nonneg _ _).2 (by norm_num))
  · exact mul_coeff_mono h12 (by norm_num)
  · exact mul_coeff_mono h12 (by norm_num)

lemma calculateCTETaxes_mono (d : DocumentData)
    (rules : List TaxRuleExcerpt) (v₁ v₂ : ℚ) (h12 : v₁ ≤ v₂) :
    TaxesLe (calculateCTETaxes { d with totalValue := some v₁ } rules).taxes
      (calculateCTETaxes { d with totalValue := some v₂ } rules).taxes := by
  simp only [calculateCTETaxes, jsOrQ_some_zero]
  exact ⟨mul_coeff_mono h12 (by norm_num), trivial, trivial, trivial, trivial⟩

lemma applySpecialRegimes_mono (c₁ c₂ : TaxCalculation)
    (d₁ d₂ : DocumentData) (rules : List TaxRuleExcerpt)
    (hti : d₁.taxInfo = d₂.taxInfo) (h : TaxesLe c₁.taxes c₂.taxes) :
    TaxesLe (applySpecialRegimes c₁ d₁ rules).taxes
      (applySpecialRegimes c₂ d₂ rules).taxes := by
  unfold applySpecialRegimes
  rw [hti]
  split_ifs with hreg
  · obtain ⟨h1, h2, h3, h4, h5⟩ := h
    refine ⟨?_, h2, h3, h4, h5⟩
    show optLe (c₁.taxes.ICMS.map (· * 0.5)) (c₂.taxes.ICMS.map (· * 0.5))
    rcases hI1 : c₁.taxes.ICMS with _ | w₁ <;>
      rcases hI2 : c₂.taxes.ICMS with _ | w₂ <;>
      rw [hI1, hI2] at h1
    · exact trivial
    · exact h1.elim
    · exact h1.elim
    · rw [Option.map_some', Option.map_some']
      exact mul_coeff_mono h1 (by norm_num)
  · exact h

/-- The four possible values of the registry's dispatch. -/
lemma taxCalculations_getD_cases (t : Option String) :
    (taxCalculations t).getD calculateNFETaxes = calculateNFETaxes ∨
    (taxCalculations t).getD calculateNFETaxes = calculateNFSETaxes ∨
    (taxCalculations t).getD calculateNFETaxes = calculateNFCETaxes ∨
    (taxCalculations t).getD calculateNFETaxes = calculateCTETaxes := by
  unfold taxCalculations
  split
  · exact Or.inl rfl
  · exact Or.inr (Or.inl rfl)
  · exact Or.inr (Or.inr (Or.inl rfl))
  · exact Or.inr (Or.inr (Or.inr rfl))
  · exact Or.inl rfl

/-- C8: with totalValue ≥ 0, every tax amount produced by the registry
(after the regime adjustment) is ≥ 0 for every rule list; and with the
other document fields fixed, every amount is componentwise non-decreasing
in totalValue. -/
theorem calculateTaxesWithRules_nonneg_monotone (d : DocumentData)
    (rules : List TaxRuleExcerpt) :
    ((∀ v ∈ d.totalValue, 0 ≤ v) →
      TaxesNonneg (calculateTaxesWithRules d rules).taxes) ∧
    (∀ v₁ v₂ : ℚ, 0 ≤ v₁ → v₁ ≤ v₂ →
      TaxesLe
        (calculateTaxesWithRules { d with totalValue := some v₁ } rules).taxes
        (calculateTaxesWithRules
          { d with totalValue := some v₂ } rules).taxes) := by
  constructor
  · intro h
    have hb : 0 ≤ jsOrQ d.totalValue 0 := jsOrQ_nonneg d.totalValue h
    unfold calculateTaxesWithRules
    rcases taxCalculations_getD_cases d.documentType with hc | hc | hc | hc <;>
      rw [hc] <;>
      exact applySpecialRegimes_nonneg _ _ _ (by
        first
          | exact calculateNFETaxes_nonneg d rules hb
          | exact calculateNFSETaxes_nonneg d rules hb
          | exact calculateNFCETaxes_nonneg d rules hb
          | exact calculateCTETaxes_nonneg d rules hb)
  · intro v₁ v₂ h0 h12
    unfold calculateTaxesWithRules
    have hdt : ∀ v : ℚ,
        ({ d with totalValue := some v } : DocumentData).documentType
          = d.documentType := fun _ => rfl
    rw [hdt v₁, hdt v₂]
    have hti : ({ d with totalValue := some v₁ } : DocumentData).taxInfo
        = ({ d with totalValue := some v₂ } : DocumentData).taxInfo := rfl
    rcases taxCalculations_getD_cases d.documentType with hc | hc | hc | hc <;>
      rw [hc] <;>
      exact applySpecialRegimes_mono _ _ _ _ _ hti (by
        first
          | exact calculateNFETaxes_mono d rules v₁ v₂ h12
          | exact calculateNFSETaxes_mono d rules v₁ v₂ h12
          | exact calculateNFCETaxes_mono d rules v₁ v₂ h12
          | exact calculateCTETaxes_mono d rules v₁ v₂ h12)

/-- Witness for C8 at the sample document: nonnegativity at
totalValue 1000, monotonicity from 1 to 2. -/
theorem calculateTaxesWithRules_nonneg_monotone_witness :
    TaxesNonneg (calculateTaxesWithRules sampleNFEDoc []).taxes ∧
    TaxesLe
      (calculateTaxesWithRules
        { sampleNFEDoc with totalValue := some 1 } []).taxes
      (calculateTaxesWithRules
        { sampleNFEDoc with totalValue := some 2 } []).taxes := by
  constructor
  · exact (calculateTaxesWithRules_nonneg_monotone sampleNFEDoc []).1
      (by intro v hv; simp [sampleNFEDoc] at hv; rw [← hv]; norm_num)
  · exact (calculateTaxesWithRules_nonneg_monotone sampleNFEDoc []).2 1 2
      (by norm_num) (by norm_num)

/-- C10: `validateNFeStructure` throws, without consulting SEFAZ, exactly
when one of the three structural conditions holds (the error is the same
whatever the SEFAZ outcome would have been); a record passing all three
checks is handed to the SEFAZ validation, whose result is returned. -/
theorem validateNFeStructure_spec {α : Type} (nfeData : NFeData)
    (sefazOutcome : Except String α) :
    (¬ nfeStructureInvalid nfeData →
      validateNFeStructure nfeData sefazOutcome = sefazOutcome) ∧
    (nfeStructureInvalid nfeData →
      ∃ msg, ∀ s : Except String α,
        validateNFeStructure nfeData s = .error msg) := by
  constructor
  · intro h
    unfold nfeStructureInvalid at h
    push_neg at h
    obtain ⟨h1, h2, h3⟩ := h
    unfold validateNFeStructure
    rw [if_neg h1, if_neg h2, if_neg h3]
  · intro h
    unfold validateNFeStructure
    by_cases h1 : jsFalsyStr nfeData.chaveAcesso = true
    · exact ⟨"NFe sem chave de acesso válida", fun s => by rw [if_pos h1]⟩
    · by_cases h2 : jsFalsyStr (nfeData.emitente.bind Emitente.cnpj) = true
      · exact ⟨"NFe sem CNPJ do emitente",
          fun s => by rw [if_neg h1, if_pos h2]⟩
      · have h3 :
            (jsFalsyNum nfeData.totalValue ||
              jsLeZero nfeData.totalValue) = true := by
          rcases h with h | h | h
          · exact absurd h h1
          · exact absurd h h2
          · exact h
        exact ⟨"NFe com valor total inválido",
          fun s => by rw [if_neg h1, if_neg h2, if_pos h3]⟩

/-- Witness for C10: the valid record reaches SEFAZ and returns its
outcome; the record without an access key fails structurally. -/
theorem validateNFeStructure_spec_witness :
    validateNFeStructure nfeSampleValid (Except.ok (0 : ℚ)) = Except.ok 0 ∧
    validateNFeStructure nfeSampleNoKey (Except.ok (0 : ℚ)) ≠ Except.ok 0 := by
  constructor
  · refine (validateNFeStructure_spec nfeSampleValid (Except.ok (0 : ℚ))).1 ?_
    unfold nfeStructureInvalid nfeSampleValid
    norm_num [jsFalsyStr, jsFalsyNum, jsLeZero]
    decide
  · obtain ⟨msg, hmsg⟩ :=
      (validateNFeStructure_spec nfeSampleNoKey (Except.ok (0 : ℚ))).2
        (Or.inl rfl)
    rw [hmsg (Except.ok 0)]
    exact fun contra => Except.noConfusion contra

end Taxibot
